import Mathlib

/-!
Verification of the duplex-proxy core of the backend.ai client CLI.

The development shallowly embeds the two proxy front-ends of the repository:

* `src/ai/backend/client/cli/app.py` — the local proxy (`WSProxy`,
  `ProxyRunner`): a raw TCP downstream bridged to an upstream WebSocket.
* `src/ai/backend/client/cli/proxy.py` — the gateway proxy
  (`WebSocketProxy`, `web_handler`, `websocket_handler`): an HTTP/WebSocket
  front-end relaying onto upstream API calls.

Python byte strings are `List Nat`, Python's dynamically typed message
payloads are `PyVal` (so that operations such as `bytes.decode` that only
exist on some runtime types can be modelled faithfully), and each
sequential relay loop becomes a structural recursion over the list of
messages or chunks it consumes.  The task-level behaviour of each mode
(spawning, awaiting, cancellation, connection closing) is embedded as a
small-step transition system driven by an explicit scheduler, one for the
local-proxy session and one for the gateway WebSocket relay.
-/

/-- UTF-8 encoding of a string, as the list of byte values.  Models
Python's `str.encode()`. -/
def strBytes (s : String) : List Nat :=
  (s.data.flatMap String.utf8EncodeChar).map (fun b => b.toNat)

/-- Runtime value attached to a WebSocket message (`msg.data` in aiohttp):
text frames carry `str`, binary frames carry `bytes`, close frames carry
the integer close code, and error frames carry the exception object. -/
inductive PyVal
  | bytes (bs : List Nat)
  | str (s : String)
  | int (n : Nat)
  | exc (name : String)
  deriving DecidableEq

/-- Message types of `aiohttp.WSMsgType` used by the sources. -/
inductive WSMsgType
  | TEXT
  | BINARY
  | PING
  | PONG
  | CLOSE
  | CLOSING
  | CLOSED
  | ERROR
  deriving DecidableEq

/-- One WebSocket message as yielded by iterating a connection. -/
structure WSMsg where
  type : WSMsgType
  data : PyVal
  deriving DecidableEq

/-- Numeric value of `aiohttp.WSCloseCode.OK`. -/
def WSCloseCodeOK : Nat := 1000

/-- Python's `v.decode('utf8')`: succeeds only on `bytes` holding valid
UTF-8; on any other runtime type the attribute lookup fails
(AttributeError), modelled as `none`. -/
def pyDecodeUtf8 : PyVal → Option String
  | .bytes bs => String.fromUTF8? (ByteArray.mk (Array.mk (bs.map Nat.toUInt8)))
  | _ => none

/-- Python comparison `msg.data == aiohttp.WSCloseCode.OK` (app.py line 43):
true exactly when the payload is the integer 1000. -/
def pyIsCloseOK : PyVal → Bool
  | .int n => n = WSCloseCodeOK
  | _ => false

/-- Embedding of `WSProxy.write_error` (app.py lines 70-75).  The source
formats `'HTTP/1.1 503 Service Unavailable\r\nConnection: Closed\r\n\r\n'
'WebSocket reply: {}'.format(msg.data.decode('utf8'))` and writes the
encoded result.  `some b` is the byte block written to the downstream
socket; `none` means `msg.data.decode('utf8')` raised (the payload is not
a byte string), so nothing is written and the exception propagates. -/
def write_error (data : PyVal) : Option (List Nat) :=
  (pyDecodeUtf8 data).map (fun s =>
    strBytes ("HTTP/1.1 503 Service Unavailable\r\nConnection: Closed\r\n\r\nWebSocket reply: " ++ s))

/-- Action taken by the `downstream()` closure of `WSProxy.run` (app.py
lines 38-48) on one message from the upstream WebSocket. -/
inductive DownAct
  | forward (bs : List Nat)
  | skip
  | finish
  | errWrite (b : List Nat)
  | errRaise
  deriving DecidableEq

/-- Per-message dispatch of app.py lines 39-48: ERROR frames and abnormal
CLOSE frames attempt `write_error` and break (an exception from
`write_error` propagates instead); a normal CLOSE breaks; BINARY payloads
are written through to the local socket (`writer.write` on a non-bytes
payload raises); every other type, including TEXT, is ignored. -/
def downstream_msg_act (m : WSMsg) : DownAct :=
  match m.type with
  | .ERROR =>
    match write_error m.data with
    | some b => .errWrite b
    | none => .errRaise
  | .CLOSE =>
    if pyIsCloseOK m.data then .finish
    else
      match write_error m.data with
      | some b => .errWrite b
      | none => .errRaise
  | .BINARY =>
    match m.data with
    | .bytes bs => .forward bs
    | _ => .errRaise
  | _ => .skip

/-- Result of running the local-proxy download direction over a message
sequence: the byte blocks written to the local socket, whether an
exception escaped the loop body, and whether the writer was closed (the
`finally` of app.py lines 51-54 always closes it). -/
structure DownResult where
  writes : List (List Nat)
  raised : Bool
  writerClosed : Bool
  deriving DecidableEq

/-- Embedding of the `downstream()` closure of `WSProxy.run` (app.py lines
36-54), consuming the messages yielded by the upstream WebSocket in order.
The empty list models the iteration ending because the connection
closed. -/
def wsproxy_downstream : List WSMsg → DownResult
  | [] => ⟨[], false, true⟩
  | m :: rest =>
    match downstream_msg_act m with
    | .forward bs =>
      let r := wsproxy_downstream rest
      ⟨bs :: r.writes, r.raised, r.writerClosed⟩
    | .skip => wsproxy_downstream rest
    | .finish => ⟨[], false, true⟩
    | .errWrite b => ⟨[b], false, true⟩
    | .errRaise => ⟨[], true, true⟩

/-- Observable step of the upload loop of `WSProxy.run` (app.py lines
57-62).  `read c` is one `reader.read(...)` returning chunk `c`
(`read []` is the EOF read that breaks the loop), `sendUpstream c` is the
directly awaited `ws.send_bytes(chunk)`, and `enqueue c` is the action of
placing a chunk into an outbound frame queue — included in the vocabulary
so that claims about a queue-mediated upload can be stated; the source
loop never performs it. -/
inductive UploadAction
  | read (c : List Nat)
  | sendUpstream (c : List Nat)
  | enqueue (c : List Nat)
  deriving DecidableEq

/-- Whether an upload action is an enqueue. -/
def UploadAction.isEnqueue : UploadAction → Bool
  | .enqueue _ => true
  | _ => false

/-- Trace of the upload loop of `WSProxy.run` (app.py lines 57-62) on the
successive chunks returned by `reader.read`; once the list is exhausted
the reader is at EOF and yields the empty chunk, which breaks the loop. -/
def wsproxy_upload_trace : List (List Nat) → List UploadAction
  | [] => [.read []]
  | c :: rest =>
    if c = [] then [.read c]
    else .read c :: .sendUpstream c :: wsproxy_upload_trace rest

/-- Chunks actually sent to the upstream WebSocket by the upload loop,
each one the payload of a single `send_bytes` (binary) frame. -/
def wsproxy_upload_sends (chunks : List (List Nat)) : List (List Nat) :=
  (wsproxy_upload_trace chunks).filterMap (fun a =>
    match a with
    | .sendUpstream c => some c
    | _ => none)

/-- Entry of the gateway upstream buffer: the pair `(msg.data, msg.type)`
put by `WebSocketProxy.send`, paired with the value of
`self.up_conn.closed` observed when the consumer dequeues it. -/
abbrev QEntry := (PyVal × WSMsgType) × Bool

/-- Embedding of `WebSocketProxy.consume_upstream_buffer` (proxy.py lines
78-88): frames are dequeued strictly in FIFO order; a frame dequeued
while the upstream connection is closed is dropped; otherwise BINARY
payloads go out via `send_bytes` and TEXT payloads via `send_str` (any
other tag is silently dropped too). -/
def consume_upstream_buffer : List QEntry → List (PyVal × WSMsgType)
  | [] => []
  | ((d, tp), closed) :: rest =>
    if closed then consume_upstream_buffer rest
    else if tp = .BINARY ∨ tp = .TEXT then (d, tp) :: consume_upstream_buffer rest
    else consume_upstream_buffer rest

/-- Monotone closed flags: once an entry is dequeued with the connection
closed, every later entry is dequeued with it closed as well (a closed
connection never reopens). -/
def closedMonotone : List QEntry → Bool
  | [] => true
  | e :: rest => if e.2 then rest.all (fun x => x.2) else closedMonotone rest

/-- Embedding of the enqueue side of `WebSocketProxy.upstream` (proxy.py
lines 33-43): each TEXT or BINARY message from the downstream connection
is put into the upstream buffer as `(msg.data, msg.type)`; an ERROR or
CLOSE message breaks the loop; other types fall through. -/
def gw_upstream_enqueues : List WSMsg → List (PyVal × WSMsgType)
  | [] => []
  | m :: rest =>
    match m.type with
    | .TEXT => (m.data, m.type) :: gw_upstream_enqueues rest
    | .BINARY => (m.data, m.type) :: gw_upstream_enqueues rest
    | .ERROR => []
    | .CLOSE => []
    | _ => gw_upstream_enqueues rest

/-- Embedding of the forwarding loop of `WebSocketProxy.downstream`
(proxy.py lines 56-64): TEXT messages are relayed with `send_str`, BINARY
messages with `send_bytes`, a CLOSED or ERROR message breaks the loop, and
any other type falls through.  The output records the frame type used for
each relayed payload. -/
def gw_downstream_relay : List WSMsg → List (WSMsgType × PyVal)
  | [] => []
  | m :: rest =>
    match m.type with
    | .TEXT => (.TEXT, m.data) :: gw_downstream_relay rest
    | .BINARY => (.BINARY, m.data) :: gw_downstream_relay rest
    | .CLOSED => []
    | .ERROR => []
    | _ => gw_downstream_relay rest

/-- Outcome of the upstream fetch performed by the gateway plain-relay
handler, exactly the cases distinguished by the except chain of
`web_handler` (proxy.py lines 105-146): a streaming success, a structured
`BackendAPIError`, a `BackendClientError` (upstream unreachable),
cancellation during shutdown, or any other exception. -/
inductive FetchResult
  | ok (status : Nat) (reason : String) (headers : List (String × String)) (chunks : List (List Nat))
  | apiError (status : Nat) (reason : String) (data : List Nat)
  | clientError
  | cancelled
  | exn (msg : String)
  deriving DecidableEq

/-- HTTP response as produced by the gateway handlers. -/
structure HttpResponse where
  status : Nat
  reason : String
  headers : List (String × String)
  body : List Nat
  deriving DecidableEq

/-- Embedding of `web_handler` (proxy.py lines 105-146).  On success the
upstream status and reason are copied, the upstream headers are extended
with the permissive CORS header, and the streamed chunks are concatenated
into the relayed body.  Each except branch returns the corresponding
response; no branch re-raises, which is why this is a total function into
`HttpResponse`. -/
def web_handler : FetchResult → HttpResponse
  | .ok status reason headers chunks =>
    ⟨status, reason, headers ++ [("Access-Control-Allow-Origin", "*")], chunks.flatten⟩
  | .apiError status reason data => ⟨status, reason, [], data⟩
  | .clientError =>
    ⟨502, "Bad Gateway", [], strBytes "The proxy target server is inaccessible."⟩
  | .cancelled =>
    ⟨503, "Service Unavailable", [], strBytes "The proxy is being shut down."⟩
  | .exn _ =>
    ⟨500, "Internal Server Error", [], strBytes "Something has gone wrong."⟩

/-- Outcome of the upstream WebSocket connect step in `websocket_handler`
(proxy.py lines 149-180), with the same exception cases as the plain
relay. -/
inductive ConnectResult
  | ok
  | apiError (status : Nat) (reason : String) (data : List Nat)
  | clientError
  | cancelled
  | exn (msg : String)
  deriving DecidableEq

/-- Result of `websocket_handler`: either the WebSocket relay ran and the
upgraded connection is returned, or an error response was produced by one
of the except branches. -/
inductive WsHandlerResult
  | proxied
  | response (r : HttpResponse)
  deriving DecidableEq

/-- Embedding of the error mapping of `websocket_handler` (proxy.py lines
149-180): a successful connect runs the relay; the except chain mirrors
`web_handler`. -/
def websocket_handler : ConnectResult → WsHandlerResult
  | .ok => .proxied
  | .apiError status reason data => .response ⟨status, reason, [], data⟩
  | .clientError =>
    .response ⟨502, "Bad Gateway", [], strBytes "The proxy target server is inaccessible."⟩
  | .cancelled =>
    .response ⟨503, "Service Unavailable", [], strBytes "The proxy is being shut down."⟩
  | .exn _ =>
    .response ⟨500, "Internal Server Error", [], strBytes "Something has gone wrong."⟩

/-- Outcome of the `connect_websocket` step of `WSProxy.run`:
either the upstream WebSocket opened, or the connect raised (e.g. a
`BackendClientError` for an unreachable upstream). -/
inductive LocalConnect
  | ok
  | connectFail (msg : String)
  deriving DecidableEq

/-- Observable outcome of one local-proxy session as driven by
`ProxyRunner.handle_connection` (app.py lines 95-103). -/
structure LocalOutcome where
  downWrites : List (List Nat)
  sentUp : List (List Nat)
  writerClosed : Bool
  wsOpened : Bool
  wsClosed : Bool
  errorLogged : Bool
  deriving DecidableEq

/-- Embedding of `ProxyRunner.handle_connection` (app.py lines 95-103).
When `connect_websocket` raises, `WSProxy.run` aborts before creating the
download task or touching the writer; `handle_connection` catches the
exception and only logs it with `print_error` — nothing is written to the
local socket and the handler does not close the writer.  On a successful
connect the session runs both directions to completion (run's `finally`
awaits the download task) and the `async with` block closes the upstream
WebSocket on exit.

Modelled from the spec: the `connect_websocket` context manager itself
lives in the repository's `request` module, which is not part of this
excerpt; per the spec (§4.3 "Runs the relay to completion, then closes
both ends") its `async with` exit closes the upstream connection. -/
def handle_connection (conn : LocalConnect) (chunks : List (List Nat))
    (msgs : List WSMsg) : LocalOutcome :=
  match conn with
  | .connectFail _ => ⟨[], [], false, false, false, true⟩
  | .ok =>
    let d := wsproxy_downstream msgs
    ⟨d.writes, wsproxy_upload_sends chunks, d.writerClosed, true, true, d.raised⟩

/-- State of the main coroutine of `WSProxy.run`: reading chunks from the
local socket (app.py lines 58-62), joining the download task in the
`finally` block (lines 66-68), or returned. -/
inductive MainSt
  | reading
  | joining
  | returned
  deriving DecidableEq

/-- State of a spawned directional task: still iterating its input, or
completed (its `finally` block has run). -/
inductive TaskSt
  | iterating
  | done
  deriving DecidableEq

/-- Interleaved state of one local-proxy session (`WSProxy.run` plus its
`downstream()` task, app.py lines 30-68).  `pendingChunks` are the chunks
the local reader will yield (with `readerEOF` telling whether the client
has half-closed, i.e. whether an exhausted reader returns the empty EOF
chunk or simply has no data ready yet); `pendingMsgs` and `wsSrcEnded`
play the same role for the upstream WebSocket iteration. -/
structure LState where
  main : MainSt
  down : TaskSt
  pendingChunks : List (List Nat)
  readerEOF : Bool
  pendingMsgs : List WSMsg
  wsSrcEnded : Bool
  sentUp : List (List Nat)
  downWrites : List (List Nat)
  writerClosed : Bool
  wsClosed : Bool
  deriving DecidableEq

/-- Scheduler choices for a local-proxy session: advance the main upload
coroutine, advance the download task, or deliver a cancellation to one of
them at its current suspension point. -/
inductive LChoice
  | stepMain
  | stepDown
  | cancelMain
  | cancelDown
  deriving DecidableEq

/-- One scheduling step of a local-proxy session.  The main coroutine
reads a chunk and directly awaits `ws.send_bytes` (app.py lines 58-62),
breaks to its `finally` on the EOF chunk, and in `joining` waits for the
download task before leaving the `async with` block (which closes the
upstream WebSocket) and returning.  The download task processes one
upstream message per step via `downstream_msg_act`; every way it
terminates runs its `finally`, closing the local writer (lines 51-54).
Cancellation is caught by both coroutines (lines 49-50 and 63-64) and
just routes them to their cleanup. -/
def lstep : LChoice → LState → LState
  | .stepMain, s =>
    match s.main with
    | .reading =>
      match s.pendingChunks with
      | c :: rest =>
        if c = [] then { s with main := .joining }
        else { s with pendingChunks := rest, sentUp := s.sentUp ++ [c] }
      | [] => if s.readerEOF then { s with main := .joining } else s
    | .joining =>
      if s.down = .done then { s with main := .returned, wsClosed := true } else s
    | .returned => s
  | .stepDown, s =>
    match s.down with
    | .done => s
    | .iterating =>
      match s.pendingMsgs with
      | [] =>
        if s.wsSrcEnded then { s with down := .done, writerClosed := true } else s
      | m :: rest =>
        match downstream_msg_act m with
        | .forward bs => { s with pendingMsgs := rest, downWrites := s.downWrites ++ [bs] }
        | .skip => { s with pendingMsgs := rest }
        | .finish => { s with down := .done, writerClosed := true }
        | .errWrite b =>
          { s with downWrites := s.downWrites ++ [b], down := .done, writerClosed := true }
        | .errRaise => { s with down := .done, writerClosed := true }
  | .cancelMain, s =>
    match s.main with
    | .reading => { s with main := .joining }
    | _ => s
  | .cancelDown, s =>
    match s.down with
    | .iterating => { s with down := .done, writerClosed := true }
    | .done => s

/-- Run a local-proxy session under a given schedule. -/
def lrun : List LChoice → LState → LState
  | [], s => s
  | c :: cs, s => lrun cs (lstep c s)

/-- Initial state of a local-proxy session right after the upstream
WebSocket connected and the download task was spawned (app.py line 56). -/
def initL (chunks : List (List Nat)) (eof : Bool) (msgs : List WSMsg)
    (wsEnded : Bool) : LState :=
  ⟨.reading, .iterating, chunks, eof, msgs, wsEnded, [], [], false, false⟩

/-- Event observed by the gateway `downstream()` task while iterating the
upstream connection (proxy.py lines 51-76): a message, a
`ClientConnectorError`, or a `ClientResponseError` with its status and
message. -/
inductive GUpEvent
  | msg (m : WSMsg)
  | connError
  | respError (status : Nat) (message : String)
  deriving DecidableEq

/-- Interleaved state of one gateway WebSocket relay session
(`WebSocketProxy`, proxy.py lines 16-102).  `queued` is the content put
into the upstream buffer by `upstream()`; `sentDown` the frames relayed to
the downstream connection by `downstream()`; `downCloseCode` the
code/message of an error-status close performed on the downstream
connection, if any. -/
structure GState where
  upT : TaskSt
  downT : TaskSt
  pendingDownMsgs : List WSMsg
  downSrcEnded : Bool
  pendingUpEvents : List GUpEvent
  upSrcEnded : Bool
  queued : List (PyVal × WSMsgType)
  sentDown : List (WSMsgType × PyVal)
  upConnClosed : Bool
  downConnClosed : Bool
  downCloseCode : Option (Nat × String)
  bufTaskStopped : Bool
  proxyReturned : Bool
  deriving DecidableEq

/-- Scheduler choices for a gateway relay session. -/
inductive GChoice
  | stepUp
  | stepDown
  | cancelUp
  | cancelDown
  deriving DecidableEq

/-- Termination of the gateway `upstream()` coroutine: its `finally` runs
`close_downstream` (proxy.py lines 93-95), and because `proxy()` awaits
only `upstream()` (lines 29-31), `proxy()` returns at this very point. -/
def gFinishUp (s : GState) : GState :=
  { s with upT := .done, downConnClosed := true, proxyReturned := true }

/-- Termination of the gateway `downstream()` task: its `finally` runs
`close_upstream` (proxy.py lines 97-102), cancelling the buffer consumer
task and closing the upstream connection. -/
def gFinishDown (s : GState) : GState :=
  { s with downT := .done, bufTaskStopped := true, upConnClosed := true }

/-- One scheduling step of a gateway relay session.  `upstream()` (proxy.py
lines 33-49) enqueues each TEXT or BINARY message from the downstream
connection into the upstream buffer and breaks on ERROR or CLOSE;
`downstream()` (lines 51-76) relays TEXT and BINARY messages from the
upstream connection, breaks on CLOSED or ERROR, and maps
`ClientConnectorError` and `ClientResponseError` to an error-status close
of the downstream connection.  Both catch `CancelledError` and fall
through to their `finally`. -/
def gstep : GChoice → GState → GState
  | .stepUp, s =>
    match s.upT with
    | .done => s
    | .iterating =>
      match s.pendingDownMsgs with
      | [] => if s.downSrcEnded then gFinishUp s else s
      | m :: rest =>
        match m.type with
        | .TEXT => { s with pendingDownMsgs := rest, queued := s.queued ++ [(m.data, m.type)] }
        | .BINARY => { s with pendingDownMsgs := rest, queued := s.queued ++ [(m.data, m.type)] }
        | .ERROR => gFinishUp s
        | .CLOSE => gFinishUp s
        | _ => { s with pendingDownMsgs := rest }
  | .stepDown, s =>
    match s.downT with
    | .done => s
    | .iterating =>
      match s.pendingUpEvents with
      | [] => if s.upSrcEnded then gFinishDown s else s
      | e :: rest =>
        match e with
        | .msg m =>
          match m.type with
          | .TEXT => { s with pendingUpEvents := rest, sentDown := s.sentDown ++ [(.TEXT, m.data)] }
          | .BINARY => { s with pendingUpEvents := rest, sentDown := s.sentDown ++ [(.BINARY, m.data)] }
          | .CLOSED => gFinishDown s
          | .ERROR => gFinishDown s
          | _ => { s with pendingUpEvents := rest }
        | .connError =>
          gFinishDown { s with downCloseCode := some (503, "Connection failed"), downConnClosed := true }
        | .respError status message =>
          gFinishDown { s with downCloseCode := some (status, message), downConnClosed := true }
  | .cancelUp, s =>
    match s.upT with
    | .iterating => gFinishUp s
    | .done => s
  | .cancelDown, s =>
    match s.downT with
    | .iterating => gFinishDown s
    | .done => s

/-- Run a gateway relay session under a given schedule. -/
def grun : List GChoice → GState → GState
  | [], s => s
  | c :: cs, s => grun cs (gstep c s)

/-- Initial state of a gateway relay session right after
`websocket_handler` prepared both connections and `proxy()` spawned
`downstream()` (proxy.py lines 29-31, 156-160). -/
def initG (downMsgs : List WSMsg) (downEnded : Bool) (upEvents : List GUpEvent)
    (upEnded : Bool) : GState :=
  ⟨.iterating, .iterating, downMsgs, downEnded, upEvents, upEnded,
    [], [], false, false, none, false, false⟩

/-- Session invariant of the local proxy: once `WSProxy.run` has returned
the download task has completed and both the local writer and the
upstream WebSocket are closed, and a completed download task has always
closed the writer. -/
def LInv (s : LState) : Prop :=
  (s.main = .returned → s.down = .done ∧ s.writerClosed = true ∧ s.wsClosed = true) ∧
  (s.down = .done → s.writerClosed = true)

/-- Session invariant of the gateway relay: once `proxy()` has returned,
the `upstream()` coroutine has completed and the downstream connection is
closed.  Note the deliberate asymmetry with `LInv`: nothing relates
`proxyReturned` to `downT` or `upConnClosed`, because `proxy()` never
awaits the spawned `downstream()` task. -/
def GInv (s : GState) : Prop :=
  s.proxyReturned = true → s.upT = .done ∧ s.downConnClosed = true

/-- Helper: a run of buffer entries all dequeued with the connection
closed produces no upstream sends. -/
theorem consume_all_closed (l : List QEntry) (h : l.all (fun x => x.2) = true) :
    consume_upstream_buffer l = [] := by
  induction l with
  | nil => rfl
  | cons e rest ih =>
    obtain ⟨⟨d, tp⟩, closed⟩ := e
    simp only [List.all_cons, Bool.and_eq_true] at h
    simp only [consume_upstream_buffer, h.1, if_true]
    exact ih h.2

/-- Helper: every scheduler step of a local-proxy session preserves the
session invariant. -/
theorem linv_step (c : LChoice) (s : LState) (h : LInv s) : LInv (lstep c s) := by
  obtain ⟨h1, h2⟩ := h
  cases c <;>
    (simp only [lstep]
     repeat' split
     all_goals simp_all [LInv])

/-- Helper: the local-proxy session invariant is preserved by any
schedule. -/
theorem linv_run (cs : List LChoice) (s : LState) (h : LInv s) : LInv (lrun cs s) := by
  induction cs generalizing s with
  | nil => exact h
  | cons c cs ih => exact ih _ (linv_step c s h)

/-- Helper: every scheduler step of a gateway relay session preserves the
gateway invariant. -/
theorem ginv_step (c : GChoice) (s : GState) (h : GInv s) : GInv (gstep c s) := by
  cases c <;>
    (simp only [gstep]
     repeat' split
     all_goals simp_all [GInv, gFinishUp, gFinishDown])

/-- Helper: the gateway invariant is preserved by any schedule. -/
theorem ginv_run (cs : List GChoice) (s : GState) (h : GInv s) : GInv (grun cs s) := by
  induction cs generalizing s with
  | nil => exact h
  | cons c cs ih => exact ih _ (ginv_step c s h)

/-- C5 counterexample: in the gateway relay, `WebSocketProxy.proxy`
spawns `downstream()` with `ensure_future` and awaits only `upstream()`
(proxy.py lines 29-31).  When the downstream client sends a CLOSE frame
while the upstream peer is silent, one step of `upstream()` makes
`proxy()` return while the `downstream()` task is still running and the
upstream connection is still open — refuting the claim that the run
operation does not return until both directional tasks have completed
and both connections are closed. -/
theorem gateway_proxy_returns_with_downstream_running :
    (grun [GChoice.stepUp]
        (initG [⟨WSMsgType.CLOSE, PyVal.int 1000⟩] false [] false)).proxyReturned = true ∧
    (grun [GChoice.stepUp]
        (initG [⟨WSMsgType.CLOSE, PyVal.int 1000⟩] false [] false)).downT = TaskSt.iterating ∧
    (grun [GChoice.stepUp]
        (initG [⟨WSMsgType.CLOSE, PyVal.int 1000⟩] false [] false)).upConnClosed = false := by
  decide

/-- C5 (amended): for the local proxy, `WSProxy.run` does not return
under any schedule until the download task has completed and both the
local writer and the upstream WebSocket are closed; for the gateway
relay, when `WebSocketProxy.proxy` returns the `upstream()` direction has
completed and the downstream connection is closed, but nothing stronger —
the spawned `downstream()` task and the upstream connection are not
awaited. -/
theorem relay_run_termination :
    (∀ (cs : List LChoice) (chunks : List (List Nat)) (eof : Bool)
        (msgs : List WSMsg) (wsEnded : Bool),
      (lrun cs (initL chunks eof msgs wsEnded)).main = MainSt.returned →
        (lrun cs (initL chunks eof msgs wsEnded)).down = TaskSt.done ∧
        (lrun cs (initL chunks eof msgs wsEnded)).writerClosed = true ∧
        (lrun cs (initL chunks eof msgs wsEnded)).wsClosed = true) ∧
    (∀ (cs : List GChoice) (downMsgs : List WSMsg) (downEnded : Bool)
        (upEvents : List GUpEvent) (upEnded : Bool),
      (grun cs (initG downMsgs downEnded upEvents upEnded)).proxyReturned = true →
        (grun cs (initG downMsgs downEnded upEvents upEnded)).upT = TaskSt.done ∧
        (grun cs (initG downMsgs downEnded upEvents upEnded)).downConnClosed = true) := by
  constructor
  · intro cs chunks eof msgs wsEnded
    have h0 : LInv (initL chunks eof msgs wsEnded) := by
      constructor <;> intro h <;> simp [initL] at h
    exact (linv_run cs _ h0).1
  · intro cs downMsgs downEnded upEvents upEnded
    have h0 : GInv (initG downMsgs downEnded upEvents upEnded) := by
      intro h; simp [initG] at h
    exact ginv_run cs _ h0

/-- Witness for the amended C5 theorem: a concrete local schedule that
drains an already-finished session and returns, and a concrete gateway
schedule in which the handler task is cancelled, with the guaranteed
closing facts extracted through the theorem. -/
theorem relay_run_termination_witness :
    ((lrun [LChoice.stepDown, LChoice.stepMain, LChoice.stepMain]
        (initL [] true [] true)).down = TaskSt.done ∧
     (lrun [LChoice.stepDown, LChoice.stepMain, LChoice.stepMain]
        (initL [] true [] true)).writerClosed = true ∧
     (lrun [LChoice.stepDown, LChoice.stepMain, LChoice.stepMain]
        (initL [] true [] true)).wsClosed = true) ∧
    ((grun [GChoice.cancelUp] (initG [] false [] false)).upT = TaskSt.done ∧
     (grun [GChoice.cancelUp] (initG [] false [] false)).downConnClosed = true) := by
  exact ⟨relay_run_termination.1 [LChoice.stepDown, LChoice.stepMain, LChoice.stepMain]
      [] true [] true (by decide),
    relay_run_termination.2 [GChoice.cancelUp] [] false [] false (by decide)⟩

/-- C8: delivering a cancellation to both directional tasks of a
mid-transfer session still runs their cleanup — the local writer, the
upstream WebSocket, and in gateway mode both connections and the buffer
consumer task all end up closed or stopped — while the cancellation
itself appends nothing to the bytes written downstream, the frames sent
or queued upstream, or the downstream error-close status. -/
theorem cancellation_clean_close :
    (∀ s : LState, s.main = MainSt.reading → s.down = TaskSt.iterating →
      (lstep .stepMain (lstep .cancelDown (lstep .cancelMain s))).main = MainSt.returned ∧
      (lstep .stepMain (lstep .cancelDown (lstep .cancelMain s))).down = TaskSt.done ∧
      (lstep .stepMain (lstep .cancelDown (lstep .cancelMain s))).writerClosed = true ∧
      (lstep .stepMain (lstep .cancelDown (lstep .cancelMain s))).wsClosed = true ∧
      (lstep .stepMain (lstep .cancelDown (lstep .cancelMain s))).downWrites = s.downWrites ∧
      (lstep .stepMain (lstep .cancelDown (lstep .cancelMain s))).sentUp = s.sentUp) ∧
    (∀ g : GState, g.upT = TaskSt.iterating → g.downT = TaskSt.iterating →
      (gstep .cancelDown (gstep .cancelUp g)).upT = TaskSt.done ∧
      (gstep .cancelDown (gstep .cancelUp g)).downT = TaskSt.done ∧
      (gstep .cancelDown (gstep .cancelUp g)).upConnClosed = true ∧
      (gstep .cancelDown (gstep .cancelUp g)).downConnClosed = true ∧
      (gstep .cancelDown (gstep .cancelUp g)).bufTaskStopped = true ∧
      (gstep .cancelDown (gstep .cancelUp g)).sentDown = g.sentDown ∧
      (gstep .cancelDown (gstep .cancelUp g)).queued = g.queued ∧
      (gstep .cancelDown (gstep .cancelUp g)).downCloseCode = g.downCloseCode) := by
  constructor
  · intro s hm hd
    simp [lstep, hm, hd]
  · intro g hu hd
    simp [gstep, gFinishUp, gFinishDown, hu, hd]

/-- Witness for C8 at a concrete mid-transfer session in each mode. -/
theorem cancellation_clean_close_witness :
    ((lstep .stepMain (lstep .cancelDown (lstep .cancelMain
        (initL [[1, 2]] false [⟨WSMsgType.BINARY, PyVal.bytes [7]⟩] false)))).writerClosed = true ∧
     (lstep .stepMain (lstep .cancelDown (lstep .cancelMain
        (initL [[1, 2]] false [⟨WSMsgType.BINARY, PyVal.bytes [7]⟩] false)))).wsClosed = true) ∧
    ((gstep .cancelDown (gstep .cancelUp
        (initG [⟨WSMsgType.TEXT, PyVal.str "a"⟩] false [] false))).upConnClosed = true ∧
     (gstep .cancelDown (gstep .cancelUp
        (initG [⟨WSMsgType.TEXT, PyVal.str "a"⟩] false [] false))).downConnClosed = true) := by
  refine ⟨?_, ?_⟩
  · have h := cancellation_clean_close.1
      (initL [[1, 2]] false [⟨WSMsgType.BINARY, PyVal.bytes [7]⟩] false)
      (by decide) (by decide)
    exact ⟨h.2.2.1, h.2.2.2.1⟩
  · have h := cancellation_clean_close.2
      (initG [⟨WSMsgType.TEXT, PyVal.str "a"⟩] false [] false)
      (by decide) (by decide)
    exact ⟨h.2.2.1, h.2.2.2.1⟩

/-- C1: the local-proxy upload loop forwards each non-empty chunk read
from the local downstream client verbatim as one `send_bytes` (binary)
frame, so the upstream WebSocket receives exactly the same total byte
sequence in the same order. -/
theorem upload_total_byte_preservation :
    ∀ chunks : List (List Nat), (∀ c ∈ chunks, c ≠ []) →
      wsproxy_upload_sends chunks = chunks ∧
      (wsproxy_upload_sends chunks).flatten = chunks.flatten := by
  intro chunks h
  have key : wsproxy_upload_sends chunks = chunks := by
    induction chunks with
    | nil => rfl
    | cons c rest ih =>
      have hc : c ≠ [] := h c (List.mem_cons_self c rest)
      have hrest := ih (fun x hx => h x (List.mem_cons_of_mem c hx))
      simp only [wsproxy_upload_sends, wsproxy_upload_trace, if_neg hc,
        List.filterMap_cons] at hrest ⊢
      simp [hrest]
  exact ⟨key, by rw [key]⟩

/-- Witness for C1 on a concrete two-chunk read sequence. -/
theorem upload_total_byte_preservation_witness :
    wsproxy_upload_sends [[72, 105], [33]] = [[72, 105], [33]] ∧
    (wsproxy_upload_sends [[72, 105], [33]]).flatten = [[72, 105], [33]].flatten :=
  upload_total_byte_preservation [[72, 105], [33]] (by decide)

/-- C2 counterexample: the local-proxy download direction (app.py lines
38-48) only writes BINARY payloads through to the local socket; a TEXT
frame sent by the upstream peer is silently dropped, so the downstream
peer does not receive the same frames in local-proxy mode. -/
theorem local_download_drops_text_frame :
    (wsproxy_downstream [⟨WSMsgType.TEXT, PyVal.str "hello"⟩]).writes = [] := by
  decide

/-- C2 (amended): the gateway WebSocket relay forwards every TEXT/BINARY
frame from the upstream peer to the downstream peer with the same
payload, the same type tag and in the same order; the local-proxy
download direction preserves payloads and order only for BINARY frames,
whose payloads it writes to the raw byte stream, and ignores TEXT
frames. -/
theorem relay_download_frame_fidelity :
    (∀ msgs : List WSMsg,
      (∀ m ∈ msgs, m.type = WSMsgType.TEXT ∨ m.type = WSMsgType.BINARY) →
      gw_downstream_relay msgs = msgs.map (fun m => (m.type, m.data))) ∧
    (∀ msgs : List WSMsg,
      (∀ m ∈ msgs, m.type = WSMsgType.TEXT ∨
        ∃ bs, m.type = WSMsgType.BINARY ∧ m.data = PyVal.bytes bs) →
      (wsproxy_downstream msgs).writes =
        msgs.filterMap (fun m =>
          match m.type, m.data with
          | WSMsgType.BINARY, PyVal.bytes bs => some bs
          | _, _ => none) ∧
      (wsproxy_downstream msgs).raised = false) := by
  constructor
  · intro msgs h
    induction msgs with
    | nil => rfl
    | cons m rest ih =>
      have hm := h m (List.mem_cons_self m rest)
      have hrest := ih (fun x hx => h x (List.mem_cons_of_mem m hx))
      rcases hm with hm | hm <;>
        simp [gw_downstream_relay, hm, hrest]
  · intro msgs h
    induction msgs with
    | nil => exact ⟨rfl, rfl⟩
    | cons m rest ih =>
      have hm := h m (List.mem_cons_self m rest)
      have hrest := ih (fun x hx => h x (List.mem_cons_of_mem m hx))
      rcases hm with hm | ⟨bs, hty, hdata⟩
      · obtain ⟨mty, mdata⟩ := m
        simp only at hm
        subst hm
        simpa [wsproxy_downstream, downstream_msg_act] using hrest
      · obtain ⟨mty, mdata⟩ := m
        simp only at hty hdata
        subst hty; subst hdata
        simp [wsproxy_downstream, downstream_msg_act, hrest.1, hrest.2]

/-- Witness for the amended C2 theorem on a concrete frame sequence with
one TEXT and one BINARY frame. -/
theorem relay_download_frame_fidelity_witness :
    gw_downstream_relay [⟨WSMsgType.TEXT, PyVal.str "a"⟩, ⟨WSMsgType.BINARY, PyVal.bytes [1, 2]⟩] =
      [(WSMsgType.TEXT, PyVal.str "a"), (WSMsgType.BINARY, PyVal.bytes [1, 2])] ∧
    (wsproxy_downstream
      [⟨WSMsgType.TEXT, PyVal.str "a"⟩, ⟨WSMsgType.BINARY, PyVal.bytes [1, 2]⟩]).writes =
      [[1, 2]] := by
  constructor
  · exact relay_download_frame_fidelity.1
      [⟨WSMsgType.TEXT, PyVal.str "a"⟩, ⟨WSMsgType.BINARY, PyVal.bytes [1, 2]⟩] (by decide)
  · have h := (relay_download_frame_fidelity.2
      [⟨WSMsgType.TEXT, PyVal.str "a"⟩, ⟨WSMsgType.BINARY, PyVal.bytes [1, 2]⟩]
      (by intro m hm
          fin_cases hm
          · exact Or.inl rfl
          · exact Or.inr ⟨[1, 2], rfl, rfl⟩)).1
    simpa using h

/-- C3 counterexample: a frame put into the upstream buffer but dequeued
while the upstream connection is closed is never delivered to the
upstream connection at all (proxy.py line 82), refuting the claim that
every frame put into the queue is delivered. -/
theorem framequeue_closed_discard_loses_frame :
    consume_upstream_buffer [((PyVal.bytes [42], WSMsgType.BINARY), true)] = [] := by
  decide

/-- C3 (amended): the buffer consumer dequeues strictly in FIFO order and
never reorders or coalesces; because the upstream connection's closed
state is monotone, the frames actually sent form exactly the prefix of
the enqueued sequence dequeued before closure (the whole sequence if the
connection stays open), and the frames dequeued after closure are
discarded. -/
theorem framequeue_fifo_order :
    ∀ entries : List QEntry,
      closedMonotone entries = true →
      (∀ e ∈ entries, e.1.2 = WSMsgType.TEXT ∨ e.1.2 = WSMsgType.BINARY) →
      consume_upstream_buffer entries =
        (entries.takeWhile (fun e => !e.2)).map (fun e => e.1) := by
  intro entries hmono htags
  induction entries with
  | nil => rfl
  | cons e rest ih =>
    obtain ⟨⟨d, tp⟩, closed⟩ := e
    cases closed with
    | true =>
      have hall : rest.all (fun x => x.2) = true := by
        simpa [closedMonotone] using hmono
      simp [consume_upstream_buffer, List.takeWhile, consume_all_closed rest hall]
    | false =>
      have hmono' : closedMonotone rest = true := by
        simpa [closedMonotone] using hmono
      have htag := htags ((d, tp), false) (List.mem_cons_self _ _)
      have hrest := ih hmono' (fun x hx => htags x (List.mem_cons_of_mem _ hx))
      rcases htag with htag | htag <;>
        simp only at htag <;>
        simp [consume_upstream_buffer, List.takeWhile, htag, hrest]

/-- Witness for the amended C3 theorem: two frames dequeued while open
are sent in FIFO order, the one dequeued after closure is dropped. -/
theorem framequeue_fifo_order_witness :
    consume_upstream_buffer
      [((PyVal.bytes [1], WSMsgType.BINARY), false),
       ((PyVal.str "x", WSMsgType.TEXT), false),
       ((PyVal.bytes [2], WSMsgType.BINARY), true)] =
      [(PyVal.bytes [1], WSMsgType.BINARY), (PyVal.str "x", WSMsgType.TEXT)] := by
  have h := framequeue_fifo_order
    [((PyVal.bytes [1], WSMsgType.BINARY), false),
     ((PyVal.str "x", WSMsgType.TEXT), false),
     ((PyVal.bytes [2], WSMsgType.BINARY), true)]
    (by decide) (by decide)
  simpa using h

/-- C4: the gateway plain-relay handler maps every upstream failure to
the specified response and returns (rather than re-raises) in all cases:
a structured API error is passed through with exactly the upstream
status, reason and body — in particular a 404 "Not Found" with body
"missing" is returned verbatim — an unreachable upstream yields 502,
cancellation during shutdown yields 503, and any other exception yields
500.  Totality of `web_handler` is the embedding of "the fault is not
re-raised to the HTTP layer". -/
theorem web_handler_error_mapping :
    ∀ (status : Nat) (reason : String) (d : List Nat) (e : String),
      web_handler (FetchResult.apiError status reason d) = ⟨status, reason, [], d⟩ ∧
      web_handler (FetchResult.apiError 404 "Not Found" (strBytes "missing")) =
        ⟨404, "Not Found", [], strBytes "missing"⟩ ∧
      web_handler FetchResult.clientError =
        ⟨502, "Bad Gateway", [], strBytes "The proxy target server is inaccessible."⟩ ∧
      web_handler FetchResult.cancelled =
        ⟨503, "Service Unavailable", [], strBytes "The proxy is being shut down."⟩ ∧
      web_handler (FetchResult.exn e) =
        ⟨500, "Internal Server Error", [], strBytes "Something has gone wrong."⟩ := by
  intro status reason d e
  exact ⟨rfl, rfl, rfl, rfl, rfl⟩

/-- C6 counterexample: when the upstream WebSocket connect fails in
local-proxy mode, `WSProxy.run` aborts before any task is spawned and
`ProxyRunner.handle_connection` (app.py lines 95-103) merely logs the
exception: no 503-equivalent error block — indeed no byte at all — is
written to the local caller's socket, and the handler does not even close
the writer.  This refutes the local half of the claim. -/
theorem local_connect_failure_writes_nothing :
    (handle_connection (LocalConnect.connectFail "connection refused") [[71, 69, 84]] []).downWrites
      = [] ∧
    (handle_connection (LocalConnect.connectFail "connection refused") [[71, 69, 84]] []).writerClosed
      = false ∧
    (handle_connection (LocalConnect.connectFail "connection refused") [[71, 69, 84]] []).errorLogged
      = true := by
  decide

/-- C6 (amended): an upstream connect failure surfaces as a 502 Bad
Gateway response to an HTTP-relay caller of the gateway; for a local TCP
caller the failure is only logged on the server side — nothing is
written to the caller's socket and the relay simply never starts. -/
theorem connect_failure_surfacing :
    websocket_handler ConnectResult.clientError =
      WsHandlerResult.response
        ⟨502, "Bad Gateway", [], strBytes "The proxy target server is inaccessible."⟩ ∧
    ∀ (e : String) (chunks : List (List Nat)) (msgs : List WSMsg),
      handle_connection (LocalConnect.connectFail e) chunks msgs =
        ⟨[], [], false, false, false, true⟩ :=
  ⟨rfl, fun _ _ _ => rfl⟩

/-- C7 (code bug): `WSProxy.write_error` formats
`msg.data.decode('utf8')`, but for a CLOSE frame `msg.data` is the
integer close code — the very value compared against `WSCloseCode.OK` on
app.py line 43 — and for an ERROR frame it is the exception object;
neither has a `decode` method, so the attempted 503 error block is never
written: the write raises, nothing reaches the downstream socket, and the
`finally` just closes it.  A normal close closes the socket cleanly, as
claimed. -/
theorem write_error_close_code_type_confusion :
    write_error (PyVal.int 1011) = none ∧
    wsproxy_downstream [⟨WSMsgType.CLOSE, PyVal.int 1011⟩] =
      ⟨[], true, true⟩ ∧
    wsproxy_downstream [⟨WSMsgType.CLOSE, PyVal.int WSCloseCodeOK⟩] =
      ⟨[], false, true⟩ ∧
    write_error (PyVal.exc "ServerDisconnectedError") = none ∧
    wsproxy_downstream [⟨WSMsgType.ERROR, PyVal.exc "ServerDisconnectedError"⟩] =
      ⟨[], true, true⟩ := by
  decide

/-- C9 counterexample: the trace of the local-proxy upload loop on two
chunks shows each chunk awaited on a direct upstream send between
consecutive reads and contains no enqueue action at all — no FrameQueue
is interposed on the upload direction in local-proxy mode (app.py lines
57-62 call `ws.send_bytes` directly). -/
theorem upload_loop_never_enqueues :
    wsproxy_upload_trace [[1], [2]] =
      [UploadAction.read [1], UploadAction.sendUpstream [1],
       UploadAction.read [2], UploadAction.sendUpstream [2], UploadAction.read []] ∧
    (wsproxy_upload_trace [[1], [2]]).all (fun a => !a.isEnqueue) = true := by
  decide

/-- Helper: no schedule of reads ever produces an enqueue action in the
local upload loop's trace. -/
theorem upload_trace_no_enqueue :
    ∀ chunks : List (List Nat),
      (wsproxy_upload_trace chunks).all (fun a => !a.isEnqueue) = true := by
  intro chunks
  induction chunks with
  | nil => rfl
  | cons c rest ih =>
    by_cases hc : c = []
    · simp [wsproxy_upload_trace, hc, UploadAction.isEnqueue]
    · simp only [wsproxy_upload_trace, if_neg hc, List.all_cons, ih]
      rfl

/-- C9 (amended): in local-proxy mode every chunk read from the local
socket is sent directly to the upstream WebSocket — the byte reader
awaits each send, no queue is interposed; the FrameQueue of the system
lives on the downstream-to-upstream direction of the gateway relay, where
`WebSocketProxy.upstream` enqueues every TEXT/BINARY frame for the buffer
consumer task to drain. -/
theorem upload_direct_send_gateway_queue :
    (∀ chunks : List (List Nat), (∀ c ∈ chunks, c ≠ []) →
      wsproxy_upload_trace chunks =
        chunks.flatMap (fun c => [UploadAction.read c, UploadAction.sendUpstream c]) ++
          [UploadAction.read []] ∧
      (wsproxy_upload_trace chunks).all (fun a => !a.isEnqueue) = true) ∧
    (∀ msgs : List WSMsg,
      (∀ m ∈ msgs, m.type = WSMsgType.TEXT ∨ m.type = WSMsgType.BINARY) →
      gw_upstream_enqueues msgs = msgs.map (fun m => (m.data, m.type))) := by
  constructor
  · intro chunks h
    induction chunks with
    | nil => exact ⟨rfl, rfl⟩
    | cons c rest ih =>
      have hc : c ≠ [] := h c (List.mem_cons_self c rest)
      have hrest := ih (fun x hx => h x (List.mem_cons_of_mem c hx))
      exact ⟨by simp [wsproxy_upload_trace, if_neg hc, hrest.1],
        upload_trace_no_enqueue (c :: rest)⟩
  · intro msgs h
    induction msgs with
    | nil => rfl
    | cons m rest ih =>
      have hm := h m (List.mem_cons_self m rest)
      have hrest := ih (fun x hx => h x (List.mem_cons_of_mem m hx))
      rcases hm with hm | hm <;> simp [gw_upstream_enqueues, hm, hrest]

/-- Witness for the amended C9 theorem on one concrete chunk and one
concrete gateway frame. -/
theorem upload_direct_send_gateway_queue_witness :
    (wsproxy_upload_trace [[9]] =
      [UploadAction.read [9], UploadAction.sendUpstream [9], UploadAction.read []] ∧
     (wsproxy_upload_trace [[9]]).all (fun a => !a.isEnqueue) = true) ∧
    gw_upstream_enqueues [⟨WSMsgType.BINARY, PyVal.bytes [5]⟩] =
      [(PyVal.bytes [5], WSMsgType.BINARY)] := by
  constructor
  · have h := upload_direct_send_gateway_queue.1 [[9]] (by decide)
    simpa using h
  · exact upload_direct_send_gateway_queue.2 [⟨WSMsgType.BINARY, PyVal.bytes [5]⟩]
      (by intro m hm; fin_cases hm; exact Or.inr rfl)

/-- C10: a frame dequeued from the gateway upstream buffer while the
upstream connection is already closed is silently discarded — it is
removed from the queue, contributes nothing to what is ever sent
upstream, consumption continues with the remaining frames, and no error
is raised (the consumer is total). -/
theorem closed_dequeue_discarded :
    ∀ (f : PyVal × WSMsgType) (rest : List QEntry),
      consume_upstream_buffer ((f, true) :: rest) = consume_upstream_buffer rest := by
  intro f rest
  obtain ⟨d, tp⟩ := f
  rfl
